import Mathlib

/-!
Shallow embedding of the credential-issuance core of the
vault-plugin-secrets-kubernetes repository: the role configuration store
(path_roles.go), the Kubernetes object client deletes (client revision with
not-found handling), the WAL rollback handlers (wal.go), the credential
issuance orchestrator (path_creds.go) and the revocation handler
(kube_service_account.go).  Remote Kubernetes calls, the storage backend and
the WAL storage of the plugin host are modelled as explicit outcome oracles
and an explicit WAL-store state; every remote side effect performed by a run
is recorded in an event trace.
-/

namespace Kubesecrets

/-- Additional labels and annotations applied to generated objects
(struct metadata in path_roles.go). -/
structure metadata where
  labels : List (String × String)
  annotations : List (String × String)
deriving DecidableEq, Repr

/-- A stored role definition (struct roleEntry in path_roles.go).  Durations
are in seconds. -/
structure roleEntry where
  name : String
  k8sNamespace : List String
  tokenMaxTTL : Int
  tokenTTL : Int
  serviceAccountName : String
  k8sRoleName : String
  k8sRoleType : String
  roleRules : String
  nameTemplate : String
  meta : metadata
deriving DecidableEq, Repr

/-- The default for kubernetes_role_type (defaultRoleType in path_roles.go). -/
def defaultRoleType : String := "Role"

/-- ASCII lower-casing of one character, as strings.ToLower acts on the
ASCII role-type strings compared in this code. -/
def lowerChar (c : Char) : Char :=
  if 65 ≤ c.toNat ∧ c.toNat ≤ 90 then Char.ofNat (c.toNat + 32) else c

/-- strings.ToLower as used on role types. -/
def strToLower (s : String) : String :=
  String.mk (s.data.map lowerChar)

/-- onlyOneSet from path_roles.go: counts the non-empty strings and checks
the count is exactly one. -/
def onlyOneSet (vars : List String) : Bool :=
  vars.countP (fun v => v != "") == 1

/-- The additional_metadata request field as seen by pathRolesWrite: absent,
present and decodable as a labels/annotations map, or present but of a shape
mapstructure.Decode rejects. -/
inductive metadataInput where
  | validMeta (m : metadata)
  | invalidMeta
deriving DecidableEq, Repr

/-- The request fields of a role write (the FieldData consumed by
pathRolesWrite); none models a field for which d.GetOk reports absent. -/
structure rolesWriteFields where
  allowedKubernetesNamespaces : Option (List String)
  tokenMaxTTL : Option Int
  tokenTTL : Option Int
  serviceAccountName : Option String
  kubernetesRoleName : Option String
  kubernetesRoleType : Option String
  generatedRoleRules : Option String
  nameTemplate : Option String
  additionalMetadata : Option metadataInput
deriving Repr

/-- The zero-valued roleEntry allocated by pathRolesWrite when no entry with
this name exists in storage. -/
def emptyRoleEntry (name : String) : roleEntry :=
  { name := name, k8sNamespace := [], tokenMaxTTL := 0, tokenTTL := 0,
    serviceAccountName := "", k8sRoleName := "", k8sRoleType := "",
    roleRules := "", nameTemplate := "", meta := { labels := [], annotations := [] } }

/-- Field-by-field merge of the incoming request fields onto the existing
entry, as performed by the GetOk blocks of pathRolesWrite (an absent field
leaves the stored value untouched); includes the kubernetes_role_type
defaulting. -/
def mergedRoleEntry (name : String) (existing : Option roleEntry)
    (d : rolesWriteFields) : roleEntry :=
  let e0 := match existing with
    | some e => e
    | none => emptyRoleEntry name
  let e1 := { e0 with
    k8sNamespace := d.allowedKubernetesNamespaces.getD e0.k8sNamespace,
    tokenMaxTTL := d.tokenMaxTTL.getD e0.tokenMaxTTL,
    tokenTTL := d.tokenTTL.getD e0.tokenTTL,
    serviceAccountName := d.serviceAccountName.getD e0.serviceAccountName,
    k8sRoleName := d.kubernetesRoleName.getD e0.k8sRoleName,
    k8sRoleType := d.kubernetesRoleType.getD e0.k8sRoleType,
    roleRules := d.generatedRoleRules.getD e0.roleRules,
    nameTemplate := d.nameTemplate.getD e0.nameTemplate }
  let e2 := if e1.k8sRoleType = "" then { e1 with k8sRoleType := defaultRoleType } else e1
  match d.additionalMetadata with
  | some (.validMeta m) => { e2 with meta := m }
  | _ => e2

/-- Result of a role write: an error response (nothing stored) or the entry
handed to setRole. -/
inductive rolesWriteResult where
  | errResp (msg : String)
  | stored (e : roleEntry)
deriving DecidableEq, Repr

/-- Whether a role write ended in an error response (so nothing was
stored). -/
def rolesWriteIsErr : rolesWriteResult → Bool
  | .errResp _ => true
  | .stored _ => false

/-- pathRolesWrite from path_roles.go: merge the request onto any existing
entry, then run the sanity checks in source order and store the entry only
when all of them pass.  The JSON-then-YAML parse of generated_role_rules is
an external library call, modelled by the oracle rulesParseOk. -/
def pathRolesWrite (rulesParseOk : String → Bool) (name : String)
    (existing : Option roleEntry) (d : rolesWriteFields) : rolesWriteResult :=
  if name = "" then .errResp "role name must be specified"
  else
    match d.additionalMetadata with
    | some .invalidMeta =>
        .errResp "additional_metadata should be a nested map, with only labels and annotations as the top level keys"
    | _ =>
      let entry := mergedRoleEntry name existing d
      if entry.k8sNamespace.length = 0 then
        .errResp "allowed_kubernetes_namespaces must be set"
      else if !onlyOneSet [entry.serviceAccountName, entry.k8sRoleName, entry.roleRules] then
        .errResp "one and only one of service_account_name, kubernetes_role_name or generated_role_rules must be set"
      else if strToLower entry.k8sRoleType ≠ "role" ∧ strToLower entry.k8sRoleType ≠ "clusterrole" then
        .errResp "kubernetes_role_type must be either Role or ClusterRole"
      else if entry.roleRules ≠ "" ∧ !rulesParseOk entry.roleRules then
        .errResp "failed to parse generated_role_rules as a Policy object"
      else
        .stored entry

/-! Kubernetes object client (client.go, revision with not-found handling).
The remote API answer to a single delete call is modelled as an oracle
value: success, a not-found error, or some other error. -/

/-- Outcome of one remote delete call as reported by the Kubernetes API. -/
inductive apiResult where
  | okDel
  | notFound
  | apiErr (msg : String)
deriving DecidableEq, Repr

/-- deleteServiceAccount from client.go: an error is swallowed when
k8s_errors.IsNotFound reports it as a not-found error. -/
def deleteServiceAccount (api : apiResult) : Option String :=
  match api with
  | .okDel => none
  | .notFound => none
  | .apiErr m => some m

/-- deleteRole from client.go: dispatch on the lower-cased role type, with an
unsupported type rejected before any remote call; a not-found answer from
the remote delete is success. -/
def deleteRole (api : apiResult) (roleType : String) : Option String :=
  if strToLower roleType = "role" ∨ strToLower roleType = "clusterrole" then
    match api with
    | .okDel => none
    | .notFound => none
    | .apiErr m => some m
  else some "unsupported role type"

/-- deleteRoleBinding from client.go: deletes a ClusterRoleBinding or a
RoleBinding depending on the flag; a not-found answer is success. -/
def deleteRoleBinding (api : apiResult) (_isClusterRoleBinding : Bool) : Option String :=
  match api with
  | .okDel => none
  | .notFound => none
  | .apiErr m => some m

/-! WAL rollback handlers (wal.go).  A WAL entry carries an expiration
instant; instants are modelled as integers and time.Now().After(e) as a
strict comparison now > e. -/

/-- A decoded WAL entry of the role kind (struct walRole in wal.go). -/
structure walRole where
  wNamespace : String
  wName : String
  roleType : String
  expiration : Int
deriving DecidableEq, Repr

/-- A decoded WAL entry of the roleBinding kind (struct walRoleBinding in
wal.go). -/
structure walRoleBinding where
  wNamespace : String
  wName : String
  isCluster : Bool
  expiration : Int
deriving DecidableEq, Repr

/-- rollbackRoleWAL from wal.go, after a successful decode: attempt the
delete; on a delete error, discard the entry (return success) when the
expiration is already past, otherwise return the error. -/
def rollbackRoleWAL (api : apiResult) (now : Int) (entry : walRole) : Option String :=
  match deleteRole api entry.roleType with
  | none => none
  | some e => if now > entry.expiration then none else some e

/-- rollbackRoleBindingWAL from wal.go, after a successful decode: attempt
the delete; on a delete error, discard the entry (return success) when the
expiration is already past, otherwise return the error. -/
def rollbackRoleBindingWAL (api : apiResult) (now : Int) (entry : walRoleBinding) : Option String :=
  match deleteRoleBinding api entry.isCluster with
  | none => none
  | some e => if now > entry.expiration then none else some e

/-! Credential issuance orchestrator (createCreds in path_creds.go).
Remote creations and the host WAL storage are modelled by an outcome
oracle; the WAL entries currently in storage are an explicit list of ids,
and every remote call and WAL operation performed by a run is recorded in
an event trace, in execution order. -/

/-- A remote call or WAL storage operation performed during an issuance. -/
inductive event where
  | createRole (kubernetesNamespace name : String)
  | createRoleBinding (kubernetesNamespace name : String) (isCluster : Bool)
  | createServiceAccount (kubernetesNamespace name : String)
  | createToken (kubernetesNamespace name : String) (ttl : Int)
  | putWAL (id : Nat) (kind : String)
  | deleteWAL (id : Nat)
deriving DecidableEq, Repr

/-- The WAL entries currently in the host storage (by id) and the id the
next framework.PutWAL call will allocate. -/
structure walState where
  walStore : List Nat
  nextId : Nat
deriving DecidableEq, Repr

/-- Success or failure of each external call an issuance can make:
the name-template rendering, each remote create, each framework.PutWAL,
and framework.DeleteWAL per WAL id; genName is the rendered object name and
tokenValue the bearer token the remote token call returns. -/
structure clientOutcomes where
  templateOk : Bool
  genName : String
  createRoleOk : Bool
  createRoleBindingOk : Bool
  createServiceAccountOk : Bool
  createTokenOk : Bool
  tokenValue : String
  putWALRoleOk : Bool
  putWALBindingOk : Bool
  deleteWALOk : Nat → Bool

/-- An issuance request (struct credsRequest in path_creds.go); the TTL is
in seconds, zero when the request carried none. -/
structure credsRequest where
  kubernetesNamespace : String
  clusterRoleBinding : Bool
  ttl : Int
  roleName : String
deriving DecidableEq, Repr

/-- The successful response of createCreds: the returned credential data,
the internal bookkeeping stored in the lease, and the lease TTL fields. -/
structure credsResponse where
  serviceAccountNamespace : String
  serviceAccountName : String
  serviceAccountToken : String
  internalRole : String
  internalClusterRoleBinding : Bool
  internalCreatedServiceAccount : String
  internalCreatedRoleBinding : String
  internalCreatedRole : String
  internalCreatedRoleType : String
  ttl : Int
  maxTTL : Option Int
deriving DecidableEq, Repr

/-- Whether an issuance call ended in an error, with no credential
response returned. -/
def credsIsErr : Except String credsResponse → Bool
  | .error _ => true
  | .ok _ => false

/-- The TTL switch of createCreds: the request TTL when positive, else the
role default TTL when positive, else the system default lease TTL. -/
def resolveTTL (reqTTL roleTTL sysDefaultTTL : Int) : Int :=
  if reqTTL > 0 then reqTTL
  else if roleTTL > 0 then roleTTL
  else sysDefaultTTL

/-- The WAL deletion loop at the end of createCreds: iterate over the two
recorded WAL ids (role first, then binding), skip absent ones, attempt
framework.DeleteWAL on each and aggregate failures instead of stopping;
returns the final store, the deletion events and whether any delete
failed. -/
def deleteWALs (ok : Nat → Bool) : List (Option Nat) → walState → walState × List event × Bool
  | [], s => (s, [], false)
  | none :: rest, s => deleteWALs ok rest s
  | some id :: rest, s =>
      if ok id then
        let s1 : walState := { s with walStore := s.walStore.filter (fun x => x ≠ id) }
        let r := deleteWALs ok rest s1
        (r.1, .deleteWAL id :: r.2.1, r.2.2)
      else
        let r := deleteWALs ok rest s
        (r.1, .deleteWAL id :: r.2.1, true)

/-- The tail of createCreds once the token has been issued: run the WAL
deletion loop and return either the aggregated WAL-deletion error (and no
response) or the successful response. -/
def finishWALs (ok : Nat → Bool) (ids : List (Option Nat)) (s : walState)
    (evs : List event) (resp : credsResponse) :
    walState × List event × Except String credsResponse :=
  let del := deleteWALs ok ids s
  if del.2.2 then (del.1, evs ++ del.2.1, .error "error deleting WAL")
  else (del.1, evs ++ del.2.1, .ok resp)

/-- The response map built by createCreds on success, with the lease TTL
set to the resolved TTL and the max TTL attached only when the role has a
positive token_max_ttl. -/
def buildCredsResponse (role : roleEntry) (reqPayload : credsRequest)
    (saName token createdSA createdBinding createdRole : String)
    (theTTL : Int) : credsResponse :=
  { serviceAccountNamespace := reqPayload.kubernetesNamespace,
    serviceAccountName := saName,
    serviceAccountToken := token,
    internalRole := reqPayload.roleName,
    internalClusterRoleBinding := reqPayload.clusterRoleBinding,
    internalCreatedServiceAccount := createdSA,
    internalCreatedRoleBinding := createdBinding,
    internalCreatedRole := createdRole,
    internalCreatedRoleType := role.k8sRoleType,
    ttl := theTTL,
    maxTTL := if role.tokenMaxTTL > 0 then some role.tokenMaxTTL else none }

/-- createCreds from path_creds.go: render the object name, resolve the TTL,
run one of the three issuance paths chosen by which role target field is
set (existing service account; existing Role/ClusterRole with a
WAL-protected binding creation; generated rules with a WAL-protected role
creation), and on full success delete the recorded WAL entries, returning
an aggregated error and no response when any WAL deletion fails. -/
def createCreds (o : clientOutcomes) (sysDefaultTTL : Int) (role : roleEntry)
    (reqPayload : credsRequest) (s : walState) :
    walState × List event × Except String credsResponse :=
  if !o.templateOk then (s, [], .error "failed to generate name")
  else if role.serviceAccountName ≠ "" then
    -- create a token for the existing service account
    if !o.createTokenOk then
      (s, [event.createToken reqPayload.kubernetesNamespace role.serviceAccountName
             (resolveTTL reqPayload.ttl role.tokenTTL sysDefaultTTL)],
        .error "failed to create a service account token")
    else
      (s, [event.createToken reqPayload.kubernetesNamespace role.serviceAccountName
             (resolveTTL reqPayload.ttl role.tokenTTL sysDefaultTTL)],
        .ok (buildCredsResponse role reqPayload role.serviceAccountName
          o.tokenValue "" "" "" (resolveTTL reqPayload.ttl role.tokenTTL sysDefaultTTL)))
  else if role.k8sRoleName ≠ "" then
    -- binding (WAL-protected), then service account, then token
    if !o.createRoleBindingOk then
      (s, [event.createRoleBinding reqPayload.kubernetesNamespace o.genName reqPayload.clusterRoleBinding],
        .error "failed to create RoleBinding or ClusterRoleBinding")
    else if !o.putWALBindingOk then
      (s, [event.createRoleBinding reqPayload.kubernetesNamespace o.genName reqPayload.clusterRoleBinding],
        .error "error writing role binding WAL")
    else if !o.createServiceAccountOk then
      ({ walStore := s.walStore ++ [s.nextId], nextId := s.nextId + 1 },
        [event.createRoleBinding reqPayload.kubernetesNamespace o.genName reqPayload.clusterRoleBinding,
         event.putWAL s.nextId "roleBinding",
         event.createServiceAccount reqPayload.kubernetesNamespace o.genName],
        .error "failed to create service account")
    else if !o.createTokenOk then
      ({ walStore := s.walStore ++ [s.nextId], nextId := s.nextId + 1 },
        [event.createRoleBinding reqPayload.kubernetesNamespace o.genName reqPayload.clusterRoleBinding,
         event.putWAL s.nextId "roleBinding",
         event.createServiceAccount reqPayload.kubernetesNamespace o.genName,
         event.createToken reqPayload.kubernetesNamespace o.genName
           (resolveTTL reqPayload.ttl role.tokenTTL sysDefaultTTL)],
        .error "failed to create a service account token")
    else
      finishWALs o.deleteWALOk [none, some s.nextId]
        { walStore := s.walStore ++ [s.nextId], nextId := s.nextId + 1 }
        [event.createRoleBinding reqPayload.kubernetesNamespace o.genName reqPayload.clusterRoleBinding,
         event.putWAL s.nextId "roleBinding",
         event.createServiceAccount reqPayload.kubernetesNamespace o.genName,
         event.createToken reqPayload.kubernetesNamespace o.genName
           (resolveTTL reqPayload.ttl role.tokenTTL sysDefaultTTL)]
        (buildCredsResponse role reqPayload o.genName o.tokenValue
          o.genName o.genName "" (resolveTTL reqPayload.ttl role.tokenTTL sysDefaultTTL))
  else if role.roleRules ≠ "" then
    -- role (WAL-protected), then binding, then service account, then token
    if !o.createRoleOk then
      (s, [event.createRole reqPayload.kubernetesNamespace o.genName],
        .error "failed to create Role or ClusterRole")
    else if !o.putWALRoleOk then
      (s, [event.createRole reqPayload.kubernetesNamespace o.genName],
        .error "error writing service account WAL")
    else if !o.createRoleBindingOk then
      ({ walStore := s.walStore ++ [s.nextId], nextId := s.nextId + 1 },
        [event.createRole reqPayload.kubernetesNamespace o.genName,
         event.putWAL s.nextId "role",
         event.createRoleBinding reqPayload.kubernetesNamespace o.genName reqPayload.clusterRoleBinding],
        .error "failed to create RoleBinding or ClusterRoleBinding")
    else if !o.createServiceAccountOk then
      ({ walStore := s.walStore ++ [s.nextId], nextId := s.nextId + 1 },
        [event.createRole reqPayload.kubernetesNamespace o.genName,
         event.putWAL s.nextId "role",
         event.createRoleBinding reqPayload.kubernetesNamespace o.genName reqPayload.clusterRoleBinding,
         event.createServiceAccount reqPayload.kubernetesNamespace o.genName],
        .error "failed to create service account")
    else if !o.createTokenOk then
      ({ walStore := s.walStore ++ [s.nextId], nextId := s.nextId + 1 },
        [event.createRole reqPayload.kubernetesNamespace o.genName,
         event.putWAL s.nextId "role",
         event.createRoleBinding reqPayload.kubernetesNamespace o.genName reqPayload.clusterRoleBinding,
         event.createServiceAccount reqPayload.kubernetesNamespace o.genName,
         event.createToken reqPayload.kubernetesNamespace o.genName
           (resolveTTL reqPayload.ttl role.tokenTTL sysDefaultTTL)],
        .error "failed to create a service account token")
    else
      finishWALs o.deleteWALOk [some s.nextId, none]
        { walStore := s.walStore ++ [s.nextId], nextId := s.nextId + 1 }
        [event.createRole reqPayload.kubernetesNamespace o.genName,
         event.putWAL s.nextId "role",
         event.createRoleBinding reqPayload.kubernetesNamespace o.genName reqPayload.clusterRoleBinding,
         event.createServiceAccount reqPayload.kubernetesNamespace o.genName,
         event.createToken reqPayload.kubernetesNamespace o.genName
           (resolveTTL reqPayload.ttl role.tokenTTL sysDefaultTTL)]
        (buildCredsResponse role reqPayload o.genName o.tokenValue
          o.genName o.genName o.genName (resolveTTL reqPayload.ttl role.tokenTTL sysDefaultTTL))
  else
    (s, [], .error "one of service_account_name, kubernetes_role_name, or generated_role_rules must be set")

/-! Request validation of the credentials endpoint (pathCredentialsRead in
path_creds.go). -/

/-- strutil.StrListContains: list membership of a string. -/
def strListContains (l : List String) (s : String) : Bool :=
  l.contains s

/-- Modelled from the spec: makeRoleType is called from path_creds.go but
its definition is not among the provided source files.  The spec describes
the role type as an enum Role or ClusterRole, case-insensitive on input and
canonicalized, so the model canonicalizes a case-insensitive match and
leaves any other string unchanged. -/
def makeRoleType (roleType : String) : String :=
  if strToLower roleType = "role" then "Role"
  else if strToLower roleType = "clusterrole" then "ClusterRole"
  else roleType

/-- pathCredentialsRead from path_creds.go, after the role has been loaded:
reject a missing namespace argument, a namespace outside the role's allowed
list (unless the list holds the wildcard), and a ClusterRoleBinding request
against a role whose type resolves to Role — each before any remote call —
and otherwise run createCreds. -/
def pathCredentialsRead (o : clientOutcomes) (sysDefaultTTL : Int)
    (loadedRole : Option roleEntry) (namespaceArg : Option String)
    (clusterRoleBindingArg : Bool) (ttlArg : Option Int) (roleName : String)
    (s : walState) : walState × List event × Except String credsResponse :=
  match loadedRole with
  | none => (s, [], .error "error retrieving role: role is nil")
  | some role =>
    match namespaceArg with
    | none => (s, [], .error "kubernetes_namespace is required")
    | some ns =>
      let request : credsRequest :=
        { kubernetesNamespace := ns,
          clusterRoleBinding := clusterRoleBindingArg,
          ttl := ttlArg.getD 0,
          roleName := roleName }
      if !strListContains role.k8sNamespace "*" && !strListContains role.k8sNamespace request.kubernetesNamespace then
        (s, [], .error "kubernetes_namespace is not present in allowed_kubernetes_namespaces")
      else if request.clusterRoleBinding && makeRoleType role.k8sRoleType == "Role" then
        (s, [], .error "a ClusterRoleBinding cannot ref a Role")
      else
        createCreds o sysDefaultTTL role request s

/-! Revocation handler (kubeTokenRevoke in kube_service_account.go).  The
lease internal data is a Go map of dynamically typed values; the handler
reads six fields with unchecked type assertions, so a missing or wrongly
typed field makes the Go runtime panic instead of returning an error. -/

/-- A dynamically typed value in the lease internal data; goNil is the nil
interface value a Go map read yields for a missing key. -/
inductive goValue where
  | goStr (s : String)
  | goBool (b : Bool)
  | goNil
deriving DecidableEq, Repr

/-- A Go map read m[k]: the stored value, or the nil interface value when
the key is missing. -/
def lookupGo (m : List (String × goValue)) (k : String) : goValue :=
  match m.find? (fun p => p.1 == k) with
  | some p => p.2
  | none => .goNil

/-- Result of an unchecked Go type assertion x.(T): the value, or a runtime
panic when x is nil or holds a different type. -/
inductive goAssert (α : Type) where
  | assertOk (a : α)
  | assertPanics
deriving DecidableEq, Repr

/-- The unchecked assertion x.(string). -/
def assertString : goValue → goAssert String
  | .goStr s => .assertOk s
  | _ => .assertPanics

/-- The unchecked assertion x.(bool). -/
def assertBool : goValue → goAssert Bool
  | .goBool b => .assertOk b
  | _ => .assertPanics

/-- Whether the lease internal data has exactly the dynamic shape the six
assertions of kubeTokenRevoke require: five string fields and one bool
field, all present. -/
def revokeBookkeepingShape (d : List (String × goValue)) : Bool :=
  (match assertString (lookupGo d "service_account_namespace") with
    | .assertOk _ => true | .assertPanics => false) &&
  (match assertBool (lookupGo d "cluster_role_binding") with
    | .assertOk _ => true | .assertPanics => false) &&
  (match assertString (lookupGo d "created_service_account") with
    | .assertOk _ => true | .assertPanics => false) &&
  (match assertString (lookupGo d "created_role_binding") with
    | .assertOk _ => true | .assertPanics => false) &&
  (match assertString (lookupGo d "created_role") with
    | .assertOk _ => true | .assertPanics => false) &&
  (match assertString (lookupGo d "created_role_type") with
    | .assertOk _ => true | .assertPanics => false)

/-- A delete attempt made by the revocation handler. -/
inductive revokeEvent where
  | delRoleBinding (kubernetesNamespace name : String) (isCluster : Bool)
  | delServiceAccount (kubernetesNamespace name : String)
  | delRole (kubernetesNamespace name roleType : String)
deriving DecidableEq, Repr

/-- How a revocation call ends: a Go runtime panic from a failed type
assertion, an error return, or a normal nil return. -/
inductive revokeResult where
  | panics
  | errReturn (msg : String)
  | okReturn
deriving DecidableEq, Repr

/-- Success or failure of the three client deletes a revocation can make
(the client already swallows not-found answers, so a failure here is a
non-not-found remote error). -/
structure revokeOutcomes where
  deleteRoleBindingOk : Bool
  deleteServiceAccountOk : Bool
  deleteRoleOk : Bool
deriving DecidableEq, Repr

/-- The deletion sequence of kubeTokenRevoke, once the six bookkeeping
fields have been read: attempt the deletes in order binding, service
account, role, skipping empty names and returning the first failure
immediately. -/
def revokeDeletes (o : revokeOutcomes) (ns : String) (isClusterRoleBinding : Bool)
    (k8sServiceAccount k8sRoleBinding k8sRole k8sRoleType : String) :
    List revokeEvent × revokeResult :=
  let bindingEvents :=
    if k8sRoleBinding ≠ "" then [revokeEvent.delRoleBinding ns k8sRoleBinding isClusterRoleBinding] else []
  if k8sRoleBinding ≠ "" ∧ !o.deleteRoleBindingOk then
    (bindingEvents, .errReturn "failed to delete RoleBinding or ClusterRoleBinding")
  else
    let saEvents :=
      if k8sServiceAccount ≠ "" then [revokeEvent.delServiceAccount ns k8sServiceAccount] else []
    if k8sServiceAccount ≠ "" ∧ !o.deleteServiceAccountOk then
      (bindingEvents ++ saEvents, .errReturn "failed to delete ServiceAccount")
    else
      let roleEvents :=
        if k8sRole ≠ "" then [revokeEvent.delRole ns k8sRole k8sRoleType] else []
      if k8sRole ≠ "" ∧ !o.deleteRoleOk then
        (bindingEvents ++ saEvents ++ roleEvents, .errReturn "failed to delete Role or ClusterRole")
      else
        (bindingEvents ++ saEvents ++ roleEvents, .okReturn)

/-- kubeTokenRevoke from kube_service_account.go: read the six bookkeeping
fields with unchecked assertions (a bad field is a Go runtime panic), then
run the deletion sequence. -/
def kubeTokenRevoke (o : revokeOutcomes) (internalData : List (String × goValue)) :
    List revokeEvent × revokeResult :=
  match assertString (lookupGo internalData "service_account_namespace") with
  | .assertPanics => ([], .panics)
  | .assertOk ns =>
  match assertBool (lookupGo internalData "cluster_role_binding") with
  | .assertPanics => ([], .panics)
  | .assertOk isClusterRoleBinding =>
  match assertString (lookupGo internalData "created_service_account") with
  | .assertPanics => ([], .panics)
  | .assertOk k8sServiceAccount =>
  match assertString (lookupGo internalData "created_role_binding") with
  | .assertPanics => ([], .panics)
  | .assertOk k8sRoleBinding =>
  match assertString (lookupGo internalData "created_role") with
  | .assertPanics => ([], .panics)
  | .assertOk k8sRole =>
  match assertString (lookupGo internalData "created_role_type") with
  | .assertPanics => ([], .panics)
  | .assertOk k8sRoleType =>
    revokeDeletes o ns isClusterRoleBinding k8sServiceAccount k8sRoleBinding k8sRole k8sRoleType

/-- The lease internal data written by a successful issuance (the internal
map built by createCreds), as dynamically typed Go values. -/
def issuanceInternalData (r : credsResponse) : List (String × goValue) :=
  [("role", .goStr r.internalRole),
   ("service_account_namespace", .goStr r.serviceAccountNamespace),
   ("cluster_role_binding", .goBool r.internalClusterRoleBinding),
   ("created_service_account", .goStr r.internalCreatedServiceAccount),
   ("created_role_binding", .goStr r.internalCreatedRoleBinding),
   ("created_role", .goStr r.internalCreatedRole),
   ("created_role_type", .goStr r.internalCreatedRoleType)]

/-! Trace predicates used by the WAL and TTL theorems. -/

/-- Helper for deletesOnlyAfterToken: the flag records whether a
createToken event has already occurred. -/
def deletesAfterTokenAux : Bool → List event → Bool
  | _, [] => true
  | _, .createToken _ _ _ :: rest => deletesAfterTokenAux true rest
  | seen, .deleteWAL _ :: rest => seen && deletesAfterTokenAux seen rest
  | seen, _ :: rest => deletesAfterTokenAux seen rest

/-- Every deleteWAL event of the trace occurs after some createToken event. -/
def deletesOnlyAfterToken (tr : List event) : Bool :=
  deletesAfterTokenAux false tr

/-- Whether a trace holds a createToken event. -/
def hasTokenEvent (tr : List event) : Bool :=
  tr.any (fun e => match e with | .createToken _ _ _ => true | _ => false)

/-! ## Theorems -/

/-- C6: src/path_roles.go performs no comparison of the default token TTL
against the max token TTL, so the write the repository test expects to be
rejected with a TTL-order error (token_default_ttl 11h over token_max_ttl
5h on an otherwise valid role) is accepted and stored with
tokenTTL > tokenMaxTTL. -/
theorem pathRolesWrite_acceptsDefaultTTLAboveMax :
    pathRolesWrite (fun _ => true) "badttl_tokenmax" none
      { allowedKubernetesNamespaces := some ["app1", "app2"],
        tokenMaxTTL := some 18000,
        tokenTTL := some 39600,
        serviceAccountName := some "test_svc_account",
        kubernetesRoleName := none, kubernetesRoleType := none,
        generatedRoleRules := none, nameTemplate := none,
        additionalMetadata := none } =
      .stored
        { name := "badttl_tokenmax", k8sNamespace := ["app1", "app2"],
          tokenMaxTTL := 18000, tokenTTL := 39600,
          serviceAccountName := "test_svc_account", k8sRoleName := "",
          k8sRoleType := "Role", roleRules := "", nameTemplate := "",
          meta := { labels := [], annotations := [] } } ∧
    (39600 : Int) > 18000 := by
  exact ⟨by decide, by decide⟩

/-- C7: a role write stores an entry only when, after merging the request
onto any existing record, exactly one of the three target fields is
non-empty; when zero or several are set the write yields an error response
and nothing is stored. -/
theorem pathRolesWrite_exactlyOneTarget (rulesParseOk : String → Bool)
    (name : String) (existing : Option roleEntry) (d : rolesWriteFields) :
    (∀ e, pathRolesWrite rulesParseOk name existing d = .stored e →
      onlyOneSet [e.serviceAccountName, e.k8sRoleName, e.roleRules] = true) ∧
    (onlyOneSet [(mergedRoleEntry name existing d).serviceAccountName,
        (mergedRoleEntry name existing d).k8sRoleName,
        (mergedRoleEntry name existing d).roleRules] = false →
      rolesWriteIsErr (pathRolesWrite rulesParseOk name existing d) = true) := by
  constructor
  · intro e he
    simp only [pathRolesWrite] at he
    split at he
    · exact absurd he (by simp)
    · split at he
      · exact absurd he (by simp)
      · split at he
        · exact absurd he (by simp)
        · split at he
          · exact absurd he (by simp)
          · split at he
            · exact absurd he (by simp)
            · split at he
              · exact absurd he (by simp)
              · rename_i hone _ _
                have h1 : mergedRoleEntry name existing d = e := by
                  simpa using he
                rw [← h1]
                simpa using hone
  · intro h
    by_cases h1 : name = ""
    · simp [pathRolesWrite, h1, rolesWriteIsErr]
    · rcases hmi : d.additionalMetadata with _ | mi
      · by_cases h2 : (mergedRoleEntry name existing d).k8sNamespace.length = 0
        · simp [pathRolesWrite, h1, hmi, h2, rolesWriteIsErr]
        · simp [pathRolesWrite, h1, hmi, h2, h, rolesWriteIsErr]
      · cases mi with
        | validMeta m =>
          by_cases h2 : (mergedRoleEntry name existing d).k8sNamespace.length = 0
          · simp [pathRolesWrite, h1, hmi, h2, rolesWriteIsErr]
          · simp [pathRolesWrite, h1, hmi, h2, h, rolesWriteIsErr]
        | invalidMeta => simp [pathRolesWrite, h1, hmi, rolesWriteIsErr]

/-- C7 witness: a concrete write with two target fields set is rejected. -/
theorem pathRolesWrite_exactlyOneTarget_witness :
    rolesWriteIsErr (pathRolesWrite (fun _ => true) "badrole" none
      { allowedKubernetesNamespaces := some ["a"],
        tokenMaxTTL := none, tokenTTL := none,
        serviceAccountName := some "sa",
        kubernetesRoleName := some "rn", kubernetesRoleType := none,
        generatedRoleRules := none, nameTemplate := none,
        additionalMetadata := none }) = true :=
  (pathRolesWrite_exactlyOneTarget (fun _ => true) "badrole" none _).2 (by decide)

/-- C8: for each of the three object kinds, a delete answered by the remote
API with not-found returns success. -/
theorem client_deleteNotFoundIsSuccess (roleType : String)
    (h : strToLower roleType = "role" ∨ strToLower roleType = "clusterrole") :
    deleteServiceAccount .notFound = none ∧
    deleteRole .notFound roleType = none ∧
    deleteRoleBinding .notFound true = none ∧
    deleteRoleBinding .notFound false = none := by
  refine ⟨rfl, ?_, rfl, rfl⟩
  simp [deleteRole, h]

/-- C8 witness: the concrete role type ClusterRole. -/
theorem client_deleteNotFoundIsSuccess_witness :
    deleteServiceAccount .notFound = none ∧
    deleteRole .notFound "ClusterRole" = none ∧
    deleteRoleBinding .notFound true = none ∧
    deleteRoleBinding .notFound false = none :=
  client_deleteNotFoundIsSuccess "ClusterRole" (by decide)

/-- C4: for both decodable WAL kinds, a rollback returns success when the
delete succeeds; when the delete fails it returns success anyway when the
entry expiration is in the past and otherwise returns the delete error. -/
theorem rollbackWAL_expirationValve (api : apiResult) (now : Int)
    (er : walRole) (eb : walRoleBinding) :
    (deleteRole api er.roleType = none → rollbackRoleWAL api now er = none) ∧
    (∀ msg, deleteRole api er.roleType = some msg → now > er.expiration →
      rollbackRoleWAL api now er = none) ∧
    (∀ msg, deleteRole api er.roleType = some msg → ¬ now > er.expiration →
      rollbackRoleWAL api now er = some msg) ∧
    (deleteRoleBinding api eb.isCluster = none → rollbackRoleBindingWAL api now eb = none) ∧
    (∀ msg, deleteRoleBinding api eb.isCluster = some msg → now > eb.expiration →
      rollbackRoleBindingWAL api now eb = none) ∧
    (∀ msg, deleteRoleBinding api eb.isCluster = some msg → ¬ now > eb.expiration →
      rollbackRoleBindingWAL api now eb = some msg) := by
  refine ⟨?_, ?_, ?_, ?_, ?_, ?_⟩
  · intro h; simp [rollbackRoleWAL, h]
  · intro msg h hexp; simp [rollbackRoleWAL, h, hexp]
  · intro msg h hexp; simp [rollbackRoleWAL, h, hexp]
  · intro h; simp [rollbackRoleBindingWAL, h]
  · intro msg h hexp; simp [rollbackRoleBindingWAL, h, hexp]
  · intro msg h hexp; simp [rollbackRoleBindingWAL, h, hexp]

/-- C4 witness: a failing delete on an expired role entry is discarded, a
failing delete on an unexpired binding entry returns the error. -/
theorem rollbackWAL_expirationValve_witness :
    rollbackRoleWAL (.apiErr "boom") 10
      { wNamespace := "n", wName := "x", roleType := "Role", expiration := 3 } = none ∧
    rollbackRoleBindingWAL (.apiErr "boom") 2
      { wNamespace := "n", wName := "x", isCluster := false, expiration := 3 } = some "boom" := by
  constructor
  · exact (rollbackWAL_expirationValve (.apiErr "boom") 10
      { wNamespace := "n", wName := "x", roleType := "Role", expiration := 3 }
      { wNamespace := "n", wName := "x", isCluster := false, expiration := 3 }).2.1
      "boom" (by decide) (by decide)
  · exact (rollbackWAL_expirationValve (.apiErr "boom") 2
      { wNamespace := "n", wName := "x", roleType := "Role", expiration := 3 }
      { wNamespace := "n", wName := "x", isCluster := false, expiration := 3 }).2.2.2.2.2
      "boom" (by decide) (by decide)

/-- Reading the six bookkeeping fields of issuance-written internal data
always succeeds, so revocation of such a lease runs the deletion
sequence. -/
theorem kubeTokenRevoke_issuance_eval (o : revokeOutcomes) (r : credsResponse) :
    kubeTokenRevoke o (issuanceInternalData r) =
      revokeDeletes o r.serviceAccountNamespace r.internalClusterRoleBinding
        r.internalCreatedServiceAccount r.internalCreatedRoleBinding
        r.internalCreatedRole r.internalCreatedRoleType := rfl

/-- The deletion sequence itself never panics: it always ends in a normal
or an error return. -/
theorem revokeDeletes_ne_panics (o : revokeOutcomes) (ns : String) (crb : Bool)
    (sa b ro rt : String) :
    (revokeDeletes o ns crb sa b ro rt).2 ≠ .panics := by
  simp only [revokeDeletes]
  split_ifs <;> simp

/-- C2 counterexample: a lease whose bookkeeping marks a created role
binding, service account and role, where the binding delete fails: the
handler returns after the single binding attempt with that one error, so
the service-account and role deletes are never attempted and no error
aggregation happens. -/
theorem kubeTokenRevoke_stopsAtFirstFailure_cex :
    kubeTokenRevoke
      { deleteRoleBindingOk := false, deleteServiceAccountOk := true, deleteRoleOk := true }
      [("role", .goStr "testrole"),
       ("service_account_namespace", .goStr "test"),
       ("cluster_role_binding", .goBool false),
       ("created_service_account", .goStr "gen"),
       ("created_role_binding", .goStr "gen"),
       ("created_role", .goStr "gen"),
       ("created_role_type", .goStr "Role")] =
      ([revokeEvent.delRoleBinding "test" "gen" false],
        .errReturn "failed to delete RoleBinding or ClusterRoleBinding") := by
  decide

/-- C2 (amended): revocation attempts the deletes in order binding, then
service account, then role, skipping empty bookkeeping names; when every
attempted delete succeeds all of them are made, but the first failing
delete makes the handler return that single error immediately, without
attempting the remaining kinds and without aggregation. -/
theorem kubeTokenRevoke_deletionSequence (o : revokeOutcomes) (r : credsResponse) :
    ((r.internalCreatedRoleBinding ≠ "" → o.deleteRoleBindingOk = true) →
     (r.internalCreatedServiceAccount ≠ "" → o.deleteServiceAccountOk = true) →
     (r.internalCreatedRole ≠ "" → o.deleteRoleOk = true) →
     kubeTokenRevoke o (issuanceInternalData r) =
       ((if r.internalCreatedRoleBinding ≠ "" then
           [revokeEvent.delRoleBinding r.serviceAccountNamespace
             r.internalCreatedRoleBinding r.internalClusterRoleBinding] else []) ++
        (if r.internalCreatedServiceAccount ≠ "" then
           [revokeEvent.delServiceAccount r.serviceAccountNamespace
             r.internalCreatedServiceAccount] else []) ++
        (if r.internalCreatedRole ≠ "" then
           [revokeEvent.delRole r.serviceAccountNamespace
             r.internalCreatedRole r.internalCreatedRoleType] else []),
        .okReturn)) ∧
    (r.internalCreatedRoleBinding ≠ "" → o.deleteRoleBindingOk = false →
     kubeTokenRevoke o (issuanceInternalData r) =
       ([revokeEvent.delRoleBinding r.serviceAccountNamespace
           r.internalCreatedRoleBinding r.internalClusterRoleBinding],
        .errReturn "failed to delete RoleBinding or ClusterRoleBinding")) ∧
    ((r.internalCreatedRoleBinding = "" ∨ o.deleteRoleBindingOk = true) →
     r.internalCreatedServiceAccount ≠ "" → o.deleteServiceAccountOk = false →
     kubeTokenRevoke o (issuanceInternalData r) =
       ((if r.internalCreatedRoleBinding ≠ "" then
           [revokeEvent.delRoleBinding r.serviceAccountNamespace
             r.internalCreatedRoleBinding r.internalClusterRoleBinding] else []) ++
        [revokeEvent.delServiceAccount r.serviceAccountNamespace
          r.internalCreatedServiceAccount],
        .errReturn "failed to delete ServiceAccount")) ∧
    ((r.internalCreatedRoleBinding = "" ∨ o.deleteRoleBindingOk = true) →
     (r.internalCreatedServiceAccount = "" ∨ o.deleteServiceAccountOk = true) →
     r.internalCreatedRole ≠ "" → o.deleteRoleOk = false →
     kubeTokenRevoke o (issuanceInternalData r) =
       ((if r.internalCreatedRoleBinding ≠ "" then
           [revokeEvent.delRoleBinding r.serviceAccountNamespace
             r.internalCreatedRoleBinding r.internalClusterRoleBinding] else []) ++
        (if r.internalCreatedServiceAccount ≠ "" then
           [revokeEvent.delServiceAccount r.serviceAccountNamespace
             r.internalCreatedServiceAccount] else []) ++
        [revokeEvent.delRole r.serviceAccountNamespace
          r.internalCreatedRole r.internalCreatedRoleType],
        .errReturn "failed to delete Role or ClusterRole")) := by
  rw [kubeTokenRevoke_issuance_eval]
  refine ⟨?_, ?_, ?_, ?_⟩
  · intro h1 h2 h3
    by_cases hb : r.internalCreatedRoleBinding = "" <;>
      by_cases hs : r.internalCreatedServiceAccount = "" <;>
        by_cases hr : r.internalCreatedRole = "" <;>
          simp_all [revokeDeletes]
  · intro hb ho
    simp [revokeDeletes, hb, ho]
  · intro h1 hs ho
    rcases h1 with hb | hb <;>
      by_cases hbe : r.internalCreatedRoleBinding = "" <;>
        simp_all [revokeDeletes]
  · intro h1 h2 hr ho
    rcases h1 with hb | hb <;> rcases h2 with hs | hs <;>
      by_cases hbe : r.internalCreatedRoleBinding = "" <;>
        by_cases hse : r.internalCreatedServiceAccount = "" <;>
          simp_all [revokeDeletes]

/-- C2 (amended) witness: a lease that created a binding and a service
account but no role, with all deletes succeeding, attempts exactly the two
deletes in order and returns success. -/
theorem kubeTokenRevoke_deletionSequence_witness :
    kubeTokenRevoke
      { deleteRoleBindingOk := true, deleteServiceAccountOk := true, deleteRoleOk := true }
      (issuanceInternalData
        { serviceAccountNamespace := "test", serviceAccountName := "gen",
          serviceAccountToken := "tok", internalRole := "testrole",
          internalClusterRoleBinding := false,
          internalCreatedServiceAccount := "gen",
          internalCreatedRoleBinding := "gen", internalCreatedRole := "",
          internalCreatedRoleType := "Role", ttl := 3600, maxTTL := none }) =
      ([revokeEvent.delRoleBinding "test" "gen" false,
        revokeEvent.delServiceAccount "test" "gen"], .okReturn) := by
  have h := (kubeTokenRevoke_deletionSequence
    { deleteRoleBindingOk := true, deleteServiceAccountOk := true, deleteRoleOk := true }
    { serviceAccountNamespace := "test", serviceAccountName := "gen",
      serviceAccountToken := "tok", internalRole := "testrole",
      internalClusterRoleBinding := false,
      internalCreatedServiceAccount := "gen",
      internalCreatedRoleBinding := "gen", internalCreatedRole := "",
      internalCreatedRoleType := "Role", ttl := 3600, maxTTL := none }).1
    (fun _ => rfl) (fun _ => rfl) (fun hx => absurd rfl hx)
  simpa using h

/-- C10: the six bookkeeping reads of the revocation handler are unchecked
type assertions: on any internal data in which one of the fields is absent
or of the wrong dynamic type, the handler panics before any delete rather
than returning an error, while internal data of the exact shape issuance
writes always passes the assertions and never panics. -/
theorem kubeTokenRevoke_assertionShape (o : revokeOutcomes)
    (d : List (String × goValue)) :
    (revokeBookkeepingShape d = false → kubeTokenRevoke o d = ([], .panics)) ∧
    (∀ r : credsResponse, revokeBookkeepingShape (issuanceInternalData r) = true) ∧
    (∀ r : credsResponse, (kubeTokenRevoke o (issuanceInternalData r)).2 ≠ .panics) := by
  refine ⟨?_, ?_, ?_⟩
  · intro h
    unfold revokeBookkeepingShape at h
    unfold kubeTokenRevoke
    cases h1 : assertString (lookupGo d "service_account_namespace") with
    | assertPanics => rfl
    | assertOk v1 =>
      cases h2 : assertBool (lookupGo d "cluster_role_binding") with
      | assertPanics => rfl
      | assertOk v2 =>
        cases h3 : assertString (lookupGo d "created_service_account") with
        | assertPanics => rfl
        | assertOk v3 =>
          cases h4 : assertString (lookupGo d "created_role_binding") with
          | assertPanics => rfl
          | assertOk v4 =>
            cases h5 : assertString (lookupGo d "created_role") with
            | assertPanics => rfl
            | assertOk v5 =>
              cases h6 : assertString (lookupGo d "created_role_type") with
              | assertPanics => rfl
              | assertOk v6 =>
                rw [h1, h2, h3, h4, h5, h6] at h
                simp at h
  · intro r
    rfl
  · intro r
    rw [kubeTokenRevoke_issuance_eval]
    exact revokeDeletes_ne_panics _ _ _ _ _ _ _

/-- C10 witness: empty internal data fails the first assertion and the
handler panics. -/
theorem kubeTokenRevoke_assertionShape_witness :
    kubeTokenRevoke
      { deleteRoleBindingOk := true, deleteServiceAccountOk := true, deleteRoleOk := true }
      [] = ([], .panics) :=
  (kubeTokenRevoke_assertionShape
    { deleteRoleBindingOk := true, deleteServiceAccountOk := true, deleteRoleOk := true }
    []).1 (by decide)

/-- C5: an issuance request whose namespace is neither in the role's
allowed namespaces nor covered by the wildcard, or that asks for a
ClusterRoleBinding against a role whose type resolves to Role, is rejected
with a validation error before any remote call: the returned trace is
empty and the WAL state is unchanged. -/
theorem pathCredentialsRead_preconditions (o : clientOutcomes)
    (sysDefaultTTL : Int) (role : roleEntry) (nsv : String) (crb : Bool)
    (ttlArg : Option Int) (roleName : String) (s : walState)
    (h : (strListContains role.k8sNamespace "*" = false ∧
          strListContains role.k8sNamespace nsv = false) ∨
         (crb = true ∧ makeRoleType role.k8sRoleType = "Role")) :
    (pathCredentialsRead o sysDefaultTTL (some role) (some nsv) crb
        ttlArg roleName s).1 = s ∧
    (pathCredentialsRead o sysDefaultTTL (some role) (some nsv) crb
        ttlArg roleName s).2.1 = [] ∧
    credsIsErr (pathCredentialsRead o sysDefaultTTL (some role) (some nsv) crb
        ttlArg roleName s).2.2 = true := by
  rcases h with ⟨h1, h2⟩ | ⟨h1, h2⟩
  · refine ⟨?_, ?_, ?_⟩ <;> simp [pathCredentialsRead, h1, h2, credsIsErr]
  · by_cases hw : strListContains role.k8sNamespace "*" = true
    · refine ⟨?_, ?_, ?_⟩ <;> simp [pathCredentialsRead, hw, h1, h2, credsIsErr]
    · by_cases hn : strListContains role.k8sNamespace nsv = true
      · refine ⟨?_, ?_, ?_⟩ <;> simp [pathCredentialsRead, hw, hn, h1, h2, credsIsErr]
      · refine ⟨?_, ?_, ?_⟩ <;> simp [pathCredentialsRead, hw, hn, credsIsErr]

/-- C5 witness: a namespace outside the allowed list is rejected with no
events and an unchanged state. -/
theorem pathCredentialsRead_preconditions_witness :
    (pathCredentialsRead
      { templateOk := true, genName := "gen", createRoleOk := true,
        createRoleBindingOk := true, createServiceAccountOk := true,
        createTokenOk := true, tokenValue := "tok", putWALRoleOk := true,
        putWALBindingOk := true, deleteWALOk := fun _ => true }
      600
      (some { name := "r", k8sNamespace := ["app1"], tokenMaxTTL := 0,
              tokenTTL := 0, serviceAccountName := "sa", k8sRoleName := "",
              k8sRoleType := "Role", roleRules := "", nameTemplate := "",
              meta := { labels := [], annotations := [] } })
      (some "other") false none "r" { walStore := [], nextId := 0 }).1 =
        { walStore := [], nextId := 0 } ∧
    (pathCredentialsRead
      { templateOk := true, genName := "gen", createRoleOk := true,
        createRoleBindingOk := true, createServiceAccountOk := true,
        createTokenOk := true, tokenValue := "tok", putWALRoleOk := true,
        putWALBindingOk := true, deleteWALOk := fun _ => true }
      600
      (some { name := "r", k8sNamespace := ["app1"], tokenMaxTTL := 0,
              tokenTTL := 0, serviceAccountName := "sa", k8sRoleName := "",
              k8sRoleType := "Role", roleRules := "", nameTemplate := "",
              meta := { labels := [], annotations := [] } })
      (some "other") false none "r" { walStore := [], nextId := 0 }).2.1 = [] ∧
    credsIsErr (pathCredentialsRead
      { templateOk := true, genName := "gen", createRoleOk := true,
        createRoleBindingOk := true, createServiceAccountOk := true,
        createTokenOk := true, tokenValue := "tok", putWALRoleOk := true,
        putWALBindingOk := true, deleteWALOk := fun _ => true }
      600
      (some { name := "r", k8sNamespace := ["app1"], tokenMaxTTL := 0,
              tokenTTL := 0, serviceAccountName := "sa", k8sRoleName := "",
              k8sRoleType := "Role", roleRules := "", nameTemplate := "",
              meta := { labels := [], annotations := [] } })
      (some "other") false none "r" { walStore := [], nextId := 0 }).2.2 = true :=
  pathCredentialsRead_preconditions _ 600 _ "other" false none "r" _
    (Or.inl ⟨by decide, by decide⟩)

/-- C1: WAL entries written during an issuance are deleted only after the
token-creation call has succeeded (never after an individual step); a run
that returns success from a fresh WAL store leaves the store empty and has
attempted a deleteWAL for every putWAL of its trace; and when a creation
step fails after a WAL-protected step, the WAL entry already written stays
in storage. -/
theorem createCreds_walRetirement (o : clientOutcomes) (sysDefaultTTL : Int)
    (role : roleEntry) (reqPayload : credsRequest) :
    deletesOnlyAfterToken
      (createCreds o sysDefaultTTL role reqPayload { walStore := [], nextId := 0 }).2.1 = true ∧
    (credsIsErr (createCreds o sysDefaultTTL role reqPayload { walStore := [], nextId := 0 }).2.2 = false →
      (createCreds o sysDefaultTTL role reqPayload { walStore := [], nextId := 0 }).1.walStore = []) ∧
    (credsIsErr (createCreds o sysDefaultTTL role reqPayload { walStore := [], nextId := 0 }).2.2 = false →
      ∀ id kind,
        event.putWAL id kind ∈ (createCreds o sysDefaultTTL role reqPayload { walStore := [], nextId := 0 }).2.1 →
        event.deleteWAL id ∈ (createCreds o sysDefaultTTL role reqPayload { walStore := [], nextId := 0 }).2.1) ∧
    (o.templateOk = true → role.serviceAccountName = "" → role.k8sRoleName ≠ "" →
      o.createRoleBindingOk = true → o.putWALBindingOk = true →
      (o.createServiceAccountOk = false ∨ o.createTokenOk = false) →
      (createCreds o sysDefaultTTL role reqPayload { walStore := [], nextId := 0 }).1.walStore = [0]) ∧
    (o.templateOk = true → role.serviceAccountName = "" → role.k8sRoleName = "" →
      role.roleRules ≠ "" → o.createRoleOk = true → o.putWALRoleOk = true →
      (o.createRoleBindingOk = false ∨ o.createServiceAccountOk = false ∨
        o.createTokenOk = false) →
      (createCreds o sysDefaultTTL role reqPayload { walStore := [], nextId := 0 }).1.walStore = [0]) := by
  refine ⟨?_, ?_, ?_, ?_, ?_⟩
  · cases htm : o.templateOk
    · simp [createCreds, htm, deletesOnlyAfterToken, deletesAfterTokenAux]
    · by_cases hsa : role.serviceAccountName = ""
      case neg =>
        cases hct : o.createTokenOk <;>
          simp [createCreds, htm, hsa, hct, deletesOnlyAfterToken, deletesAfterTokenAux]
      case pos =>
        by_cases hrn : role.k8sRoleName = ""
        case neg =>
          cases hb : o.createRoleBindingOk
          · simp [createCreds, htm, hsa, hrn, hb, deletesOnlyAfterToken, deletesAfterTokenAux]
          · cases hw : o.putWALBindingOk
            · simp [createCreds, htm, hsa, hrn, hb, hw, deletesOnlyAfterToken, deletesAfterTokenAux]
            · cases hcs : o.createServiceAccountOk
              · simp [createCreds, htm, hsa, hrn, hb, hw, hcs, deletesOnlyAfterToken, deletesAfterTokenAux]
              · cases hct : o.createTokenOk
                · simp [createCreds, htm, hsa, hrn, hb, hw, hcs, hct,
                    deletesOnlyAfterToken, deletesAfterTokenAux]
                · cases hdw : o.deleteWALOk 0 <;>
                    simp [createCreds, htm, hsa, hrn, hb, hw, hcs, hct, hdw, finishWALs,
                      deleteWALs, deletesOnlyAfterToken, deletesAfterTokenAux]
        case pos =>
          by_cases hrr : role.roleRules = ""
          case pos => simp [createCreds, htm, hsa, hrn, hrr, deletesOnlyAfterToken, deletesAfterTokenAux]
          case neg =>
            cases hro : o.createRoleOk
            · simp [createCreds, htm, hsa, hrn, hrr, hro, deletesOnlyAfterToken, deletesAfterTokenAux]
            · cases hwr : o.putWALRoleOk
              · simp [createCreds, htm, hsa, hrn, hrr, hro, hwr, deletesOnlyAfterToken, deletesAfterTokenAux]
              · cases hb : o.createRoleBindingOk
                · simp [createCreds, htm, hsa, hrn, hrr, hro, hwr, hb,
                    deletesOnlyAfterToken, deletesAfterTokenAux]
                · cases hcs : o.createServiceAccountOk
                  · simp [createCreds, htm, hsa, hrn, hrr, hro, hwr, hb, hcs,
                      deletesOnlyAfterToken, deletesAfterTokenAux]
                  · cases hct : o.createTokenOk
                    · simp [createCreds, htm, hsa, hrn, hrr, hro, hwr, hb, hcs, hct,
                        deletesOnlyAfterToken, deletesAfterTokenAux]
                    · cases hdw : o.deleteWALOk 0 <;>
                        simp [createCreds, htm, hsa, hrn, hrr, hro, hwr, hb, hcs, hct, hdw,
                          finishWALs, deleteWALs, deletesOnlyAfterToken, deletesAfterTokenAux]
  · cases htm : o.templateOk
    · simp [createCreds, htm, credsIsErr]
    · by_cases hsa : role.serviceAccountName = ""
      case neg =>
        cases hct : o.createTokenOk <;>
          simp [createCreds, htm, hsa, hct, credsIsErr]
      case pos =>
        by_cases hrn : role.k8sRoleName = ""
        case neg =>
          cases hb : o.createRoleBindingOk
          · simp [createCreds, htm, hsa, hrn, hb, credsIsErr]
          · cases hw : o.putWALBindingOk
            · simp [createCreds, htm, hsa, hrn, hb, hw, credsIsErr]
            · cases hcs : o.createServiceAccountOk
              · simp [createCreds, htm, hsa, hrn, hb, hw, hcs, credsIsErr]
              · cases hct : o.createTokenOk
                · simp [createCreds, htm, hsa, hrn, hb, hw, hcs, hct, credsIsErr]
                · cases hdw : o.deleteWALOk 0 <;>
                    simp [createCreds, htm, hsa, hrn, hb, hw, hcs, hct, hdw, finishWALs,
                      deleteWALs, credsIsErr]
        case pos =>
          by_cases hrr : role.roleRules = ""
          case pos => simp [createCreds, htm, hsa, hrn, hrr, credsIsErr]
          case neg =>
            cases hro : o.createRoleOk
            · simp [createCreds, htm, hsa, hrn, hrr, hro, credsIsErr]
            · cases hwr : o.putWALRoleOk
              · simp [createCreds, htm, hsa, hrn, hrr, hro, hwr, credsIsErr]
              · cases hb : o.createRoleBindingOk
                · simp [createCreds, htm, hsa, hrn, hrr, hro, hwr, hb, credsIsErr]
                · cases hcs : o.createServiceAccountOk
                  · simp [createCreds, htm, hsa, hrn, hrr, hro, hwr, hb, hcs, credsIsErr]
                  · cases hct : o.createTokenOk
                    · simp [createCreds, htm, hsa, hrn, hrr, hro, hwr, hb, hcs, hct, credsIsErr]
                    · cases hdw : o.deleteWALOk 0 <;>
                        simp [createCreds, htm, hsa, hrn, hrr, hro, hwr, hb, hcs, hct, hdw,
                          finishWALs, deleteWALs, credsIsErr]
  · cases htm : o.templateOk
    · simp [createCreds, htm, credsIsErr]
    · by_cases hsa : role.serviceAccountName = ""
      case neg =>
        cases hct : o.createTokenOk <;>
          simp [createCreds, htm, hsa, hct, credsIsErr]
      case pos =>
        by_cases hrn : role.k8sRoleName = ""
        case neg =>
          cases hb : o.createRoleBindingOk
          · simp [createCreds, htm, hsa, hrn, hb, credsIsErr]
          · cases hw : o.putWALBindingOk
            · simp [createCreds, htm, hsa, hrn, hb, hw, credsIsErr]
            · cases hcs : o.createServiceAccountOk
              · simp [createCreds, htm, hsa, hrn, hb, hw, hcs, credsIsErr]
              · cases hct : o.createTokenOk
                · simp [createCreds, htm, hsa, hrn, hb, hw, hcs, hct, credsIsErr]
                · cases hdw : o.deleteWALOk 0 <;>
                    simp [createCreds, htm, hsa, hrn, hb, hw, hcs, hct, hdw, finishWALs,
                      deleteWALs, credsIsErr]
        case pos =>
          by_cases hrr : role.roleRules = ""
          case pos => simp [createCreds, htm, hsa, hrn, hrr, credsIsErr]
          case neg =>
            cases hro : o.createRoleOk
            · simp [createCreds, htm, hsa, hrn, hrr, hro, credsIsErr]
            · cases hwr : o.putWALRoleOk
              · simp [createCreds, htm, hsa, hrn, hrr, hro, hwr, credsIsErr]
              · cases hb : o.createRoleBindingOk
                · simp [createCreds, htm, hsa, hrn, hrr, hro, hwr, hb, credsIsErr]
                · cases hcs : o.createServiceAccountOk
                  · simp [createCreds, htm, hsa, hrn, hrr, hro, hwr, hb, hcs, credsIsErr]
                  · cases hct : o.createTokenOk
                    · simp [createCreds, htm, hsa, hrn, hrr, hro, hwr, hb, hcs, hct, credsIsErr]
                    · cases hdw : o.deleteWALOk 0 <;>
                        simp [createCreds, htm, hsa, hrn, hrr, hro, hwr, hb, hcs, hct, hdw,
                          finishWALs, deleteWALs, credsIsErr]
  · intro htm hsa hrn hb hw hfail
    rcases hfail with hf | hf
    · simp [createCreds, htm, hsa, hrn, hb, hw, hf]
    · cases hcsa : o.createServiceAccountOk <;>
        simp [createCreds, htm, hsa, hrn, hb, hw, hf, hcsa]
  · intro htm hsa hrn hrr hro hw hfail
    rcases hfail with hf | hf | hf
    · simp [createCreds, htm, hsa, hrn, hrr, hro, hw, hf]
    · cases hcrb : o.createRoleBindingOk <;>
        simp [createCreds, htm, hsa, hrn, hrr, hro, hw, hf, hcrb]
    · cases hcrb : o.createRoleBindingOk <;>
        cases hcsa : o.createServiceAccountOk <;>
          simp [createCreds, htm, hsa, hrn, hrr, hro, hw, hf, hcrb, hcsa]

/-- C1 witness: in the existing-role path with a successfully written
binding WAL entry, a service-account creation failure leaves the WAL entry
in storage. -/
theorem createCreds_walRetirement_witness :
    (createCreds
      { templateOk := true, genName := "gen", createRoleOk := true,
        createRoleBindingOk := true, createServiceAccountOk := false,
        createTokenOk := true, tokenValue := "tok", putWALRoleOk := true,
        putWALBindingOk := true, deleteWALOk := fun _ => true }
      600
      { name := "r", k8sNamespace := ["test"], tokenMaxTTL := 0, tokenTTL := 0,
        serviceAccountName := "", k8sRoleName := "existing", k8sRoleType := "Role",
        roleRules := "", nameTemplate := "",
        meta := { labels := [], annotations := [] } }
      { kubernetesNamespace := "test", clusterRoleBinding := false, ttl := 0, roleName := "r" }
      { walStore := [], nextId := 0 }).1.walStore = [0] :=
  (createCreds_walRetirement
    { templateOk := true, genName := "gen", createRoleOk := true,
      createRoleBindingOk := true, createServiceAccountOk := false,
      createTokenOk := true, tokenValue := "tok", putWALRoleOk := true,
      putWALBindingOk := true, deleteWALOk := fun _ => true }
    600
    { name := "r", k8sNamespace := ["test"], tokenMaxTTL := 0, tokenTTL := 0,
      serviceAccountName := "", k8sRoleName := "existing", k8sRoleType := "Role",
      roleRules := "", nameTemplate := "",
      meta := { labels := [], annotations := [] } }
    { kubernetesNamespace := "test", clusterRoleBinding := false, ttl := 0,
      roleName := "r" }).2.2.2.1 rfl rfl (by decide) rfl rfl (Or.inl rfl)

/-- C9: every token-creation call of an issuance requests the TTL resolved
as the first positive value among the request TTL, the role default TTL and
the system default; a successful response carries that TTL as the lease
TTL, and the role max TTL is attached exactly when it is positive. -/
theorem createCreds_ttlResolution (o : clientOutcomes) (sysDefaultTTL : Int)
    (role : roleEntry) (reqPayload : credsRequest) (s : walState) :
    (∀ nsx nmx t,
      event.createToken nsx nmx t ∈ (createCreds o sysDefaultTTL role reqPayload s).2.1 →
      t = resolveTTL reqPayload.ttl role.tokenTTL sysDefaultTTL) ∧
    (∀ r, (createCreds o sysDefaultTTL role reqPayload s).2.2 = .ok r →
      r.ttl = resolveTTL reqPayload.ttl role.tokenTTL sysDefaultTTL ∧
      r.maxTTL = (if role.tokenMaxTTL > 0 then some role.tokenMaxTTL else none)) ∧
    resolveTTL reqPayload.ttl role.tokenTTL sysDefaultTTL =
      (if reqPayload.ttl > 0 then reqPayload.ttl
       else if role.tokenTTL > 0 then role.tokenTTL else sysDefaultTTL) := by
  refine ⟨?_, ?_, rfl⟩
  · cases htm : o.templateOk
    · simp [createCreds, htm]
    · by_cases hsa : role.serviceAccountName = ""
      case neg =>
        cases hct : o.createTokenOk <;> simp [createCreds, htm, hsa, hct]
      case pos =>
        by_cases hrn : role.k8sRoleName = ""
        case neg =>
          cases hb : o.createRoleBindingOk <;> cases hw : o.putWALBindingOk <;>
            cases hcs : o.createServiceAccountOk <;> cases hct : o.createTokenOk <;>
              cases hdw : o.deleteWALOk s.nextId <;>
                simp_all [createCreds, finishWALs, deleteWALs]
        case pos =>
          by_cases hrr : role.roleRules = ""
          case pos => simp [createCreds, htm, hsa, hrn, hrr]
          case neg =>
            cases hro : o.createRoleOk <;> cases hwr : o.putWALRoleOk <;>
              cases hb : o.createRoleBindingOk <;> cases hcs : o.createServiceAccountOk <;>
                cases hct : o.createTokenOk <;> cases hdw : o.deleteWALOk s.nextId <;>
                  simp_all [createCreds, finishWALs, deleteWALs]
  · cases htm : o.templateOk
    · simp [createCreds, htm]
    · by_cases hsa : role.serviceAccountName = ""
      case neg =>
        cases hct : o.createTokenOk <;> simp [createCreds, htm, hsa, hct, buildCredsResponse]
      case pos =>
        by_cases hrn : role.k8sRoleName = ""
        case neg =>
          cases hb : o.createRoleBindingOk <;> cases hw : o.putWALBindingOk <;>
            cases hcs : o.createServiceAccountOk <;> cases hct : o.createTokenOk <;>
              cases hdw : o.deleteWALOk s.nextId <;>
                simp_all [createCreds, finishWALs, deleteWALs, buildCredsResponse]
        case pos =>
          by_cases hrr : role.roleRules = ""
          case pos => simp [createCreds, htm, hsa, hrn, hrr]
          case neg =>
            cases hro : o.createRoleOk <;> cases hwr : o.putWALRoleOk <;>
              cases hb : o.createRoleBindingOk <;> cases hcs : o.createServiceAccountOk <;>
                cases hct : o.createTokenOk <;> cases hdw : o.deleteWALOk s.nextId <;>
                  simp_all [createCreds, finishWALs, deleteWALs, buildCredsResponse]

/-- C9 witness: with a request TTL of 7200 over a role default of 3600 and
a system default of 600, the token call requests 7200 and the response
lease TTL is 7200, with the positive role max TTL attached. -/
theorem createCreds_ttlResolution_witness :
    (7200 : Int) = resolveTTL 7200 3600 600 ∧
    resolveTTL 7200 3600 600 =
      (if (7200 : Int) > 0 then (7200 : Int)
       else if (3600 : Int) > 0 then 3600 else 600) :=
  ⟨((createCreds_ttlResolution
      { templateOk := true, genName := "gen", createRoleOk := true,
        createRoleBindingOk := true, createServiceAccountOk := true,
        createTokenOk := true, tokenValue := "tok", putWALRoleOk := true,
        putWALBindingOk := true, deleteWALOk := fun _ => true }
      600
      { name := "r", k8sNamespace := ["test"], tokenMaxTTL := 86400, tokenTTL := 3600,
        serviceAccountName := "sample-app", k8sRoleName := "", k8sRoleType := "Role",
        roleRules := "", nameTemplate := "",
        meta := { labels := [], annotations := [] } }
      { kubernetesNamespace := "test", clusterRoleBinding := false, ttl := 7200,
        roleName := "r" }
      { walStore := [], nextId := 0 }).1 "test" "sample-app" 7200 (by decide)),
   (createCreds_ttlResolution
      { templateOk := true, genName := "gen", createRoleOk := true,
        createRoleBindingOk := true, createServiceAccountOk := true,
        createTokenOk := true, tokenValue := "tok", putWALRoleOk := true,
        putWALBindingOk := true, deleteWALOk := fun _ => true }
      600
      { name := "r", k8sNamespace := ["test"], tokenMaxTTL := 86400, tokenTTL := 3600,
        serviceAccountName := "sample-app", k8sRoleName := "", k8sRoleType := "Role",
        roleRules := "", nameTemplate := "",
        meta := { labels := [], annotations := [] } }
      { kubernetesNamespace := "test", clusterRoleBinding := false, ttl := 7200,
        roleName := "r" }
      { walStore := [], nextId := 0 }).2.2⟩

/-- C3 counterexample: a concrete issuance in which the token-creation
call succeeds and the following WAL deletion fails: the call returns an
error and no response, so the successfully created credential is not
returned to the caller. -/
theorem createCreds_credentialNotReturned_cex :
    credsIsErr (createCreds
      { templateOk := true, genName := "gen", createRoleOk := true,
        createRoleBindingOk := true, createServiceAccountOk := true,
        createTokenOk := true, tokenValue := "tok", putWALRoleOk := true,
        putWALBindingOk := true, deleteWALOk := fun _ => false }
      600
      { name := "r", k8sNamespace := ["test"], tokenMaxTTL := 0, tokenTTL := 0,
        serviceAccountName := "", k8sRoleName := "existing", k8sRoleType := "Role",
        roleRules := "", nameTemplate := "",
        meta := { labels := [], annotations := [] } }
      { kubernetesNamespace := "test", clusterRoleBinding := false, ttl := 0, roleName := "r" }
      { walStore := [], nextId := 0 }).2.2 = true ∧
    hasTokenEvent (createCreds
      { templateOk := true, genName := "gen", createRoleOk := true,
        createRoleBindingOk := true, createServiceAccountOk := true,
        createTokenOk := true, tokenValue := "tok", putWALRoleOk := true,
        putWALBindingOk := true, deleteWALOk := fun _ => false }
      600
      { name := "r", k8sNamespace := ["test"], tokenMaxTTL := 0, tokenTTL := 0,
        serviceAccountName := "", k8sRoleName := "existing", k8sRoleType := "Role",
        roleRules := "", nameTemplate := "",
        meta := { labels := [], annotations := [] } }
      { kubernetesNamespace := "test", clusterRoleBinding := false, ttl := 0, roleName := "r" }
      { walStore := [], nextId := 0 }).2.1 = true := by
  decide

/-- C3 (amended): when the token has been issued and a WAL deletion then
fails, createCreds returns the aggregated WAL-deletion error and a nil
response, so the successfully created credential is not returned to the
caller. -/
theorem createCreds_walCleanupError (o : clientOutcomes) (sysDefaultTTL : Int)
    (role : roleEntry) (reqPayload : credsRequest) (s : walState) :
    (o.templateOk = true → role.serviceAccountName = "" → role.k8sRoleName ≠ "" →
      o.createRoleBindingOk = true → o.putWALBindingOk = true →
      o.createServiceAccountOk = true → o.createTokenOk = true →
      o.deleteWALOk s.nextId = false →
      (createCreds o sysDefaultTTL role reqPayload s).2.2 = .error "error deleting WAL") ∧
    (o.templateOk = true → role.serviceAccountName = "" → role.k8sRoleName = "" →
      role.roleRules ≠ "" → o.createRoleOk = true → o.putWALRoleOk = true →
      o.createRoleBindingOk = true → o.createServiceAccountOk = true →
      o.createTokenOk = true → o.deleteWALOk s.nextId = false →
      (createCreds o sysDefaultTTL role reqPayload s).2.2 = .error "error deleting WAL") := by
  constructor
  · intro htm hsa hrn hb hw hcs hct hdw
    simp [createCreds, htm, hsa, hrn, hb, hw, hcs, hct, hdw, finishWALs, deleteWALs]
  · intro htm hsa hrn hrr hro hwr hb hcs hct hdw
    simp [createCreds, htm, hsa, hrn, hrr, hro, hwr, hb, hcs, hct, hdw, finishWALs, deleteWALs]

/-- C3 (amended) witness: the generated-rules path with a failing WAL
delete returns the WAL-deletion error. -/
theorem createCreds_walCleanupError_witness :
    (createCreds
      { templateOk := true, genName := "gen", createRoleOk := true,
        createRoleBindingOk := true, createServiceAccountOk := true,
        createTokenOk := true, tokenValue := "tok", putWALRoleOk := true,
        putWALBindingOk := true, deleteWALOk := fun _ => false }
      600
      { name := "r", k8sNamespace := ["test"], tokenMaxTTL := 0, tokenTTL := 0,
        serviceAccountName := "", k8sRoleName := "", k8sRoleType := "Role",
        roleRules := "rules", nameTemplate := "",
        meta := { labels := [], annotations := [] } }
      { kubernetesNamespace := "test", clusterRoleBinding := false, ttl := 0, roleName := "r" }
      { walStore := [], nextId := 0 }).2.2 = .error "error deleting WAL" :=
  (createCreds_walCleanupError
    { templateOk := true, genName := "gen", createRoleOk := true,
      createRoleBindingOk := true, createServiceAccountOk := true,
      createTokenOk := true, tokenValue := "tok", putWALRoleOk := true,
      putWALBindingOk := true, deleteWALOk := fun _ => false }
    600
    { name := "r", k8sNamespace := ["test"], tokenMaxTTL := 0, tokenTTL := 0,
      serviceAccountName := "", k8sRoleName := "", k8sRoleType := "Role",
      roleRules := "rules", nameTemplate := "",
      meta := { labels := [], annotations := [] } }
    { kubernetesNamespace := "test", clusterRoleBinding := false, ttl := 0, roleName := "r" }
    { walStore := [], nextId := 0 }).2 rfl rfl rfl (by decide) rfl rfl rfl rfl rfl rfl

end Kubesecrets
